import Mathlib

/-!
Verification development for the Nextalk real-time presence-and-delivery core.

The definitions below are a shallow embedding of:
  - `backend/src/lib/socket.js` (the `userSocketMap` object, the
    `getReceiverSocketId` helper, and the `connection` / `disconnect`
    handlers that mutate the map and broadcast `getOnlineUsers`),
  - `backend/src/controllers/message.controller.js` (`sendMessages`),
  - `frontend/src/store/useAuthStore.js` (`connectSocket` and its
    socket.io options and `connect_error` retry wiring),
  - `frontend/src/store/useChatStore.js` (`subscribeToMessages`,
    `unsubscribeFromMessages` and the `newMessage` handler).

The JavaScript object `userSocketMap` is modelled as an association list
with JS object semantics: assignment to an existing key updates its value
in place (keeping the key's insertion position), assignment to a fresh key
appends it, `delete` removes it, and `Object.keys` lists keys in insertion
order.  Wire events are modelled as explicit records of the event name,
payload and target sockets.
-/

namespace Nextalk

/-- JavaScript truthiness of an optional string value: `undefined` (here
`none`) and the empty string are falsy, every other string is truthy.
Used for `if (userId)`, `if (image)`, `if (receiverSocketId)`. -/
def jsTruthy : Option String → Bool
  | none => false
  | some s => s != ""

/-- The backend `userSocketMap` object: `{userId: socketId}` pairs in
insertion order. -/
abbrev Registry := List (String × String)

/-- Property access `m[k]`: the value stored under key `k`, if present. -/
def objGet : Registry → String → Option String
  | [], _ => none
  | p :: rest, k => if p.1 = k then some p.2 else objGet rest k

/-- Assignment `m[k] = v` with JS object semantics: an existing key keeps
its position and gets the new value, a fresh key is appended. -/
def objSet : Registry → String → String → Registry
  | [], k, v => [(k, v)]
  | p :: rest, k, v => if p.1 = k then (k, v) :: rest else p :: objSet rest k v

/-- `delete m[k]`: removes every entry stored under key `k`. -/
def objDelete : Registry → String → Registry
  | [], _ => []
  | p :: rest, k => if p.1 = k then objDelete rest k else p :: objDelete rest k

/-- `Object.keys(m)`: the keys in insertion order. -/
def objectKeys (m : Registry) : List String := m.map Prod.fst

/-- `getReceiverSocketId(userId)` from `socket.js`: returns
`userSocketMap[userId]`. -/
def getReceiverSocketId (m : Registry) (userId : String) : Option String :=
  objGet m userId

/-- Server-side socket.io state: the `userSocketMap` registry and the set
of currently connected sockets (the targets of `io.emit`), in connection
order. -/
structure ServerState where
  userSocketMap : Registry
  connected : List String
deriving Repr, DecidableEq

/-- The server state at process start: empty map, no connections. -/
def ServerState.init : ServerState := ⟨[], []⟩

/-- One `io.emit` broadcast: event name, payload (a list of user ids, as
in `getOnlineUsers`) and the sockets that receive it. -/
structure Broadcast where
  event : String
  payload : List String
  targets : List String
deriving Repr, DecidableEq

/-- The `io.on("connection", ...)` handler from `socket.js`: the new
socket joins the connected set; if `socket.handshake.query.userId` is
truthy it is registered (`userSocketMap[userId] = socket.id`);
unconditionally `io.emit("getOnlineUsers", Object.keys(userSocketMap))`
is sent to every connected socket, the new one included.  Returns the
updated state and the emitted broadcasts. -/
def onConnection (s : ServerState) (userId : Option String) (socketId : String) :
    ServerState × List Broadcast :=
  let connected := s.connected ++ [socketId]
  let m := if jsTruthy userId then objSet s.userSocketMap (userId.getD "") socketId
           else s.userSocketMap
  (⟨m, connected⟩, [⟨"getOnlineUsers", objectKeys m, connected⟩])

/-- The `socket.on("disconnect", ...)` handler from `socket.js`: the
socket has left the connected set; `delete userSocketMap[userId]` runs
unconditionally (with the `userId` captured at connection time; when it
was `undefined` the delete touches no registered key), then
`io.emit("getOnlineUsers", Object.keys(userSocketMap))` goes to the
remaining connected sockets. -/
def onDisconnect (s : ServerState) (userId : Option String) (socketId : String) :
    ServerState × List Broadcast :=
  let connected := s.connected.filter (fun t => t != socketId)
  let m := match userId with
    | some uid => objDelete s.userSocketMap uid
    | none => s.userSocketMap
  (⟨m, connected⟩, [⟨"getOnlineUsers", objectKeys m, connected⟩])

/-- The registry reached from the empty map by a sequence of register
operations `userSocketMap[userId] = socketId`, applied left to right. -/
def applyRegisters (ops : List (String × String)) : Registry :=
  ops.foldl (fun m op => objSet m op.1 op.2) []

/-- The value of the most recent register operation for key `k` in the
sequence `ops`, if any. -/
def lastRegistered : List (String × String) → String → Option String
  | [], _ => none
  | op :: ops, k =>
    match lastRegistered ops k with
    | some v => some v
    | none => if op.1 = k then some op.2 else none

/-- The message record built and persisted by `sendMessages` and carried
by the `newMessage` event. -/
structure NewMessage where
  senderId : String
  recieverId : String
  text : Option String
  image : Option String
deriving Repr, DecidableEq

/-- One `io.to(socketId).emit(event, payload)` call. -/
structure MsgEmit where
  target : String
  event : String
  payload : NewMessage
deriving Repr, DecidableEq

/-- Observable outcome of `sendMessages`: the HTTP response (status and
JSON body), the socket emits performed, and whether the live-delivery
branch ran (`if (receiverSocketId)`), i.e. Delivered vs NotOnline. -/
structure SendOutcome where
  status : Nat
  body : NewMessage
  emits : List MsgEmit
  delivered : Bool
deriving Repr, DecidableEq

/-- `sendMessages` from `message.controller.js`, success path: if `image`
is truthy it is uploaded and its secure url stored, the message record is
built and persisted, then `getReceiverSocketId(recieverId)` is consulted
and, when truthy, exactly one `newMessage` event carrying the record is
emitted to that socket; the response is `201` with the record in either
case.  `uploadSecureUrl` stands for `cloudinary.uploader.upload` composed
with `.secure_url`. -/
def sendMessages (userSocketMap : Registry) (senderId recieverId : String)
    (text image : Option String) (uploadSecureUrl : String → String) : SendOutcome :=
  let imageUrl : Option String :=
    if jsTruthy image then some (uploadSecureUrl (image.getD "")) else none
  let newMessage : NewMessage := ⟨senderId, recieverId, text, imageUrl⟩
  let receiverSocketId := getReceiverSocketId userSocketMap recieverId
  let emits : List MsgEmit :=
    if jsTruthy receiverSocketId then [⟨receiverSocketId.getD "", "newMessage", newMessage⟩]
    else []
  ⟨201, newMessage, emits, jsTruthy receiverSocketId⟩

/-- The socket.io client options passed by `connectSocket` in
`useAuthStore.js`. -/
structure SocketIOOptions where
  reconnection : Bool
  reconnectionAttempts : Nat
  reconnectionDelay : Nat
deriving Repr, DecidableEq

/-- The literal options object: `reconnection: true, reconnectionAttempts:
5, reconnectionDelay: 1000`. -/
def connectSocketOptions : SocketIOOptions := ⟨true, 5, 1000⟩

/-- The fixed delay of the `connect_error` handler's
`setTimeout(() => get().connectSocket(), 3000)`. -/
def connectErrorRetryDelayMs : Nat := 3000

/-- The fixed delay of the `setTimeout(..., 500)` wrapping socket creation
in `connectSocket`. -/
def connectSetupDelayMs : Nat := 500

/-- Client-side state relevant to `connectSocket`: whether `authUser` is
set, whether a `Socket` object exists and whether it is connected, plus
counters of sockets created and connect attempts started. -/
structure ClientState where
  authUser : Bool
  socketExists : Bool
  socketConnected : Bool
  socketsCreated : Nat
  connectAttempts : Nat
deriving Repr, DecidableEq

/-- `connectSocket` from `useAuthStore.js`: guard
`if (!authUser || get().Socket?.connected) return;` (optional chaining:
with no socket the test is falsy), else a fresh socket is created with
`connectSocketOptions`, stored in the state, and `socket.connect()`
starts a connect attempt. -/
def connectSocket (s : ClientState) : ClientState :=
  if !s.authUser || (s.socketExists && s.socketConnected) then s
  else
    { s with socketExists := true, socketConnected := false,
             socketsCreated := s.socketsCreated + 1,
             connectAttempts := s.connectAttempts + 1 }

/-- The `socket.on("connect_error", ...)` handler: after the fixed
`connectErrorRetryDelayMs` it invokes `connectSocket` again. -/
def onConnectError (s : ClientState) : ClientState := connectSocket s

/-- The execution in which every connect attempt fails: `connectSocket`
is first called with an authenticated user and no socket, and each failed
attempt fires `connect_error`, whose handler calls `connectSocket` again
(the socket never reaches the connected state). -/
def failingRun : Nat → ClientState
  | 0 => connectSocket ⟨true, false, false, 0, 0⟩
  | n + 1 => onConnectError (failingRun n)

/-- The `socket.on("newMessage", ...)` handler installed by
`subscribeToMessages` in `useChatStore.js`: the incoming message is
appended to the view's message list exactly when its `senderId` equals
the selected conversation partner's `_id` (captured at subscribe time);
otherwise the handler returns early and the list is unchanged. -/
def newMessageHandler (selectedUserId : String) (messages : List NewMessage)
    (incoming : NewMessage) : List NewMessage :=
  if incoming.senderId = selectedUserId then messages ++ [incoming] else messages

/-- A client socket's event-handler table: `(eventName, handlerId)` pairs
in registration order, as maintained by socket.io's `on`/`off`. -/
structure ClientSocket where
  handlers : List (String × Nat)
deriving Repr, DecidableEq

/-- `socket.on(event, handler)`: appends one handler registration. -/
def socketOn (sk : ClientSocket) (ev : String) (h : Nat) : ClientSocket :=
  ⟨sk.handlers ++ [(ev, h)]⟩

/-- `socket.off(event)` with no handler argument: removes every handler
registered for that event. -/
def socketOffEvent (sk : ClientSocket) (ev : String) : ClientSocket :=
  ⟨sk.handlers.filter (fun p => p.1 != ev)⟩

/-- Effect of `subscribeToMessages` on the socket's handler table: with no
selected user it returns early; with no live socket it installs nothing
now (it triggers a reconnect attempt and defers); otherwise it registers
one `newMessage` handler via `socket.on`. -/
def subscribeToMessages (selectedUser : Option String) (socket : Option ClientSocket)
    (h : Nat) : Option ClientSocket :=
  match selectedUser, socket with
  | none, sk => sk
  | some _, none => none
  | some _, some sk => some (socketOn sk "newMessage" h)

/-- `unsubscribeFromMessages` from `useChatStore.js`: with no live socket
it returns early (no-op); otherwise it runs `socket.off("newMessage")`,
removing every `newMessage` handler. -/
def unsubscribeFromMessages (socket : Option ClientSocket) : Option ClientSocket :=
  match socket with
  | none => none
  | some sk => some (socketOffEvent sk "newMessage")

/-- Number of handlers registered for the `newMessage` event. -/
def newMessageHandlerCount : Option ClientSocket → Nat
  | none => 0
  | some sk => (sk.handlers.filter (fun p => p.1 == "newMessage")).length

/-! Registry lemmas. -/

/-- Reading back the key just assigned yields the assigned value. -/
theorem objGet_objSet_self (m : Registry) (k v : String) :
    objGet (objSet m k v) k = some v := by
  induction m with
  | nil => simp [objSet, objGet]
  | cons p rest ih =>
    by_cases h : p.1 = k
    · simp [objSet, objGet, h]
    · simp [objSet, objGet, h, ih]

/-- Assignment to one key leaves every other key's value unchanged. -/
theorem objGet_objSet_ne (m : Registry) (k v k2 : String) (h : k2 ≠ k) :
    objGet (objSet m k v) k2 = objGet m k2 := by
  have hk : ¬k = k2 := fun hkp => h hkp.symm
  induction m with
  | nil => simp [objSet, objGet, hk]
  | cons p rest ih =>
    by_cases hp : p.1 = k
    · subst hp
      simp [objSet, objGet, hk]
    · simp only [objSet, if_neg hp, objGet]
      by_cases hp2 : p.1 = k2 <;> simp [hp2, ih]

/-- Assignment keys: an existing key keeps the key list unchanged, a
fresh key is appended. -/
theorem objectKeys_objSet (m : Registry) (k v : String) :
    objectKeys (objSet m k v) =
      if k ∈ objectKeys m then objectKeys m else objectKeys m ++ [k] := by
  induction m with
  | nil => simp [objSet, objectKeys]
  | cons p rest ih =>
    by_cases h : p.1 = k
    · simp [objSet, objectKeys, h]
    · have hk : ¬k = p.1 := fun hkp => h hkp.symm
      simp only [objSet, if_neg h, objectKeys, List.map_cons] at ih ⊢
      rw [ih]
      by_cases hm : k ∈ List.map Prod.fst rest
      · rw [if_pos hm, if_pos (List.mem_cons.mpr (Or.inr hm))]
      · rw [if_neg hm, if_neg (by simp [hk, hm]), List.cons_append]

/-- Assignment preserves key uniqueness. -/
theorem nodup_objectKeys_objSet (m : Registry) (k v : String)
    (h : (objectKeys m).Nodup) : (objectKeys (objSet m k v)).Nodup := by
  rw [objectKeys_objSet]
  by_cases hm : k ∈ objectKeys m
  · simpa [hm] using h
  · simpa [hm, List.nodup_append] using h

/-- Lookup after a fold of assignments: the most recent assignment for
the key wins, falling back to the initial map. -/
theorem objGet_foldl_objSet (ops : List (String × String)) (m : Registry) (k : String) :
    objGet (ops.foldl (fun acc op => objSet acc op.1 op.2) m) k =
      match lastRegistered ops k with
      | some v => some v
      | none => objGet m k := by
  induction ops generalizing m with
  | nil => simp [lastRegistered]
  | cons op ops ih =>
    rw [List.foldl_cons, ih]
    by_cases h : op.1 = k
    · subst h
      cases hl : lastRegistered ops op.1 with
      | none => simp [lastRegistered, hl, objGet_objSet_self]
      | some v => simp [lastRegistered, hl]
    · cases hl : lastRegistered ops k with
      | none => simp [lastRegistered, hl, h, objGet_objSet_ne _ _ _ _ (fun hk => h hk.symm)]
      | some v => simp [lastRegistered, hl, h]

/-- A fold of assignments preserves key uniqueness. -/
theorem nodup_objectKeys_foldl_objSet (ops : List (String × String)) (m : Registry)
    (h : (objectKeys m).Nodup) :
    (objectKeys (ops.foldl (fun acc op => objSet acc op.1 op.2) m)).Nodup := by
  induction ops generalizing m with
  | nil => simpa using h
  | cons op ops ih =>
    rw [List.foldl_cons]
    exact ih _ (nodup_objectKeys_objSet _ _ _ h)

/-! Claim theorems. -/

/-- Claim C2: for every sequence of register calls the registry holds at
most one entry per identity (its key list has no duplicates), and lookup
via `getReceiverSocketId` returns exactly the most recently registered
socket for the identity (last-connect-wins), or nothing when the identity
was never registered. -/
theorem C2_registry_last_connect_wins (ops : List (String × String)) (id : String) :
    (objectKeys (applyRegisters ops)).Nodup ∧
    getReceiverSocketId (applyRegisters ops) id = lastRegistered ops id := by
  constructor
  · exact nodup_objectKeys_foldl_objSet ops [] (by simp [objectKeys])
  · unfold applyRegisters getReceiverSocketId
    rw [objGet_foldl_objSet]
    cases lastRegistered ops id <;> simp [objGet]

/-- Claim C1: the code has no identity-match guard in its disconnect
teardown.  After sessions `s1` then `s2` register for identity `u` the
registry maps `u` to `s2`; when the superseded session `s1`'s disconnect
handler then fires, `delete userSocketMap[u]` runs unconditionally and
evicts the newer session: `lookup(u)` becomes absent instead of `s2`,
contradicting the guarded-unregister contract. -/
theorem C1_stale_disconnect_evicts_newer_session :
    getReceiverSocketId
      ((onConnection ((onConnection ServerState.init (some "u") "s1").1)
        (some "u") "s2").1).userSocketMap "u" = some "s2" ∧
    getReceiverSocketId
      ((onDisconnect ((onConnection ((onConnection ServerState.init (some "u") "s1").1)
        (some "u") "s2").1) (some "u") "s1").1).userSocketMap "u" = none :=
  ⟨rfl, rfl⟩

/-- Claim C3: `sendMessages` with the recipient registered under a truthy
socket id is Delivered and emits exactly one `newMessage` event to the
recipient's socket carrying the persisted record (whose fields are the
inputs unchanged); with the recipient absent it is NotOnline and emits
nothing; every emit targets the recipient's registered socket only, so a
sender whose registered socket differs receives no echo. -/
theorem C3_deliver_correct (reg : Registry) (senderId recieverId : String)
    (text image : Option String) (upload : String → String) :
    (∀ sid, getReceiverSocketId reg recieverId = some sid → sid ≠ "" →
      (sendMessages reg senderId recieverId text image upload).delivered = true ∧
      (sendMessages reg senderId recieverId text image upload).emits =
        [⟨sid, "newMessage", (sendMessages reg senderId recieverId text image upload).body⟩]) ∧
    (getReceiverSocketId reg recieverId = none →
      (sendMessages reg senderId recieverId text image upload).delivered = false ∧
      (sendMessages reg senderId recieverId text image upload).emits = []) ∧
    (∀ e ∈ (sendMessages reg senderId recieverId text image upload).emits,
      some e.target = getReceiverSocketId reg recieverId) ∧
    (∀ ssid, getReceiverSocketId reg senderId = some ssid →
      getReceiverSocketId reg recieverId ≠ some ssid →
      ∀ e ∈ (sendMessages reg senderId recieverId text image upload).emits,
        e.target ≠ ssid) ∧
    (sendMessages reg senderId recieverId text image upload).body.senderId = senderId ∧
    (sendMessages reg senderId recieverId text image upload).body.recieverId = recieverId ∧
    (sendMessages reg senderId recieverId text image upload).body.text = text := by
  refine ⟨?_, ?_, ?_, ?_, rfl, rfl, rfl⟩
  · intro sid hsid hne
    simp [sendMessages, hsid, jsTruthy, hne]
  · intro habs
    simp [sendMessages, habs, jsTruthy]
  · intro e he
    cases hsid : getReceiverSocketId reg recieverId with
    | none => simp [sendMessages, hsid, jsTruthy] at he
    | some sid =>
      by_cases hne : sid = ""
      · simp [sendMessages, hsid, jsTruthy, hne] at he
      · simp [sendMessages, hsid, jsTruthy, hne] at he
        simp [he]
  · intro ssid hss hneq e he
    cases hsid : getReceiverSocketId reg recieverId with
    | none => simp [sendMessages, hsid, jsTruthy] at he
    | some sid =>
      by_cases hne : sid = ""
      · simp [sendMessages, hsid, jsTruthy, hne] at he
      · simp [sendMessages, hsid, jsTruthy, hne] at he
        subst he
        intro hcontra
        apply hneq
        rw [hsid]
        exact congrArg some hcontra

/-- Concrete instance of the C3 theorem: with registry
`{alice: sA, bob: sB}`, a message from alice to bob is delivered as one
`newMessage` emit to `sB`, and with the empty registry it is NotOnline
with no emits. -/
theorem C3_deliver_correct_witness :
    ((sendMessages [("alice", "sA"), ("bob", "sB")] "alice" "bob" (some "hi") none
        (fun u => u)).delivered = true ∧
      (sendMessages [("alice", "sA"), ("bob", "sB")] "alice" "bob" (some "hi") none
        (fun u => u)).emits =
        [⟨"sB", "newMessage",
          (sendMessages [("alice", "sA"), ("bob", "sB")] "alice" "bob" (some "hi") none
            (fun u => u)).body⟩]) ∧
    ((sendMessages [] "alice" "bob" (some "hi") none (fun u => u)).delivered = false ∧
      (sendMessages [] "alice" "bob" (some "hi") none (fun u => u)).emits = []) :=
  ⟨(C3_deliver_correct [("alice", "sA"), ("bob", "sB")] "alice" "bob" (some "hi") none
      (fun u => u)).1 "sB" (by decide) (by decide),
   (C3_deliver_correct [] "alice" "bob" (some "hi") none
      (fun u => u)).2.1 (by decide)⟩

/-- Claim C9: the HTTP response of `sendMessages` (status 201 and the
persisted record as body) is the same for any two registry states, in
particular whether or not the recipient is registered at delivery time,
so live-delivery success is unobservable to the sender through this
call. -/
theorem C9_response_independent_of_presence (reg1 reg2 : Registry)
    (senderId recieverId : String) (text image : Option String)
    (upload : String → String) :
    (sendMessages reg1 senderId recieverId text image upload).status =
      (sendMessages reg2 senderId recieverId text image upload).status ∧
    (sendMessages reg1 senderId recieverId text image upload).body =
      (sendMessages reg2 senderId recieverId text image upload).body :=
  ⟨rfl, rfl⟩

/-- Claim C4 (amended): after every successful register (a connection
with a truthy identity) exactly one immediate `getOnlineUsers` broadcast
is emitted, targeting every currently connected session including the
triggering one, with payload exactly the registry keys at that moment;
and after every disconnect teardown exactly one such broadcast targets
the remaining connected sessions with payload exactly the keys after the
removal. -/
theorem C4_broadcast_after_mutation (s : ServerState) (uid socketId : String)
    (h : uid ≠ "") :
    (onConnection s (some uid) socketId).2 =
      [⟨"getOnlineUsers", objectKeys (onConnection s (some uid) socketId).1.userSocketMap,
        (onConnection s (some uid) socketId).1.connected⟩] ∧
    socketId ∈ (onConnection s (some uid) socketId).1.connected ∧
    getReceiverSocketId (onConnection s (some uid) socketId).1.userSocketMap uid =
      some socketId ∧
    (onDisconnect s (some uid) socketId).2 =
      [⟨"getOnlineUsers", objectKeys (onDisconnect s (some uid) socketId).1.userSocketMap,
        (onDisconnect s (some uid) socketId).1.connected⟩] ∧
    socketId ∉ (onDisconnect s (some uid) socketId).1.connected := by
  refine ⟨rfl, by simp [onConnection], ?_, rfl, by simp [onDisconnect]⟩
  simp [onConnection, jsTruthy, h, getReceiverSocketId, objGet_objSet_self]

/-- Concrete instance of the C4 theorem at the initial server state with
identity u1 and socket s1. -/
theorem C4_broadcast_after_mutation_witness :
    (onConnection ServerState.init (some "u1") "s1").2 =
      [⟨"getOnlineUsers",
        objectKeys (onConnection ServerState.init (some "u1") "s1").1.userSocketMap,
        (onConnection ServerState.init (some "u1") "s1").1.connected⟩] ∧
    "s1" ∈ (onConnection ServerState.init (some "u1") "s1").1.connected ∧
    getReceiverSocketId (onConnection ServerState.init (some "u1") "s1").1.userSocketMap
      "u1" = some "s1" ∧
    (onDisconnect ServerState.init (some "u1") "s1").2 =
      [⟨"getOnlineUsers",
        objectKeys (onDisconnect ServerState.init (some "u1") "s1").1.userSocketMap,
        (onDisconnect ServerState.init (some "u1") "s1").1.connected⟩] ∧
    "s1" ∉ (onDisconnect ServerState.init (some "u1") "s1").1.connected :=
  C4_broadcast_after_mutation ServerState.init "u1" "s1" (by decide)

/-- Claim C4 counterexample to the only-then part: a connection arriving
without an identity performs no register (the registry stays empty) yet
still triggers a `getOnlineUsers` broadcast, so broadcasts do not occur
only after successful registry mutations. -/
theorem C4_broadcast_without_register :
    (onConnection ServerState.init none "s0").1.userSocketMap =
      ServerState.init.userSocketMap ∧
    (onConnection ServerState.init none "s0").2 =
      [⟨"getOnlineUsers", [], ["s0"]⟩] :=
  ⟨rfl, rfl⟩

/-- Claim C5 (amended): a connection whose identity value is missing or
empty (falsy) causes no registry mutation; however the connection is not
torn down — it joins the connected set — and a `getOnlineUsers`
broadcast with the unchanged identity set is still emitted to every
connected session including the new one. -/
theorem C5_unidentified_connection (s : ServerState) (userId : Option String)
    (socketId : String) (h : jsTruthy userId = false) :
    (onConnection s userId socketId).1.userSocketMap = s.userSocketMap ∧
    (onConnection s userId socketId).1.connected = s.connected ++ [socketId] ∧
    (onConnection s userId socketId).2 =
      [⟨"getOnlineUsers", objectKeys s.userSocketMap, s.connected ++ [socketId]⟩] := by
  refine ⟨?_, rfl, ?_⟩ <;> simp [onConnection, h]

/-- Concrete instance of the C5 theorem: a connection with no identity
value joins a server that already has user u registered. -/
theorem C5_unidentified_connection_witness :
    (onConnection ⟨[("u", "s1")], ["s1"]⟩ none "s2").1.userSocketMap = [("u", "s1")] ∧
    (onConnection ⟨[("u", "s1")], ["s1"]⟩ none "s2").1.connected = ["s1"] ++ ["s2"] ∧
    (onConnection ⟨[("u", "s1")], ["s1"]⟩ none "s2").2 =
      [⟨"getOnlineUsers", objectKeys [("u", "s1")], ["s1"] ++ ["s2"]⟩] :=
  C5_unidentified_connection ⟨[("u", "s1")], ["s1"]⟩ none "s2" rfl

/-- Claim C5 counterexample: a connection arriving with a missing
identity is not torn down (it stays in the connected set) and its arrival
does produce an observable effect, namely a `getOnlineUsers` broadcast,
contradicting the no-side-effects, torn-down claim. -/
theorem C5_missing_identity_side_effects :
    (onConnection ⟨[("u", "sA")], ["sA"]⟩ none "sB").1.connected = ["sA", "sB"] ∧
    (onConnection ⟨[("u", "sA")], ["sA"]⟩ none "sB").2 ≠ [] :=
  ⟨rfl, by decide⟩

/-- In the all-failing execution the client always holds an authenticated
user and a never-connected socket, and the attempt counter grows by one
per `connect_error` respawn. -/
theorem failingRun_eq (n : Nat) : failingRun n = ⟨true, true, false, n + 1, n + 1⟩ := by
  induction n with
  | zero => rfl
  | succ n ih => simp [failingRun, onConnectError, connectSocket, ih]

/-- Claim C6 (amended): the retry delays are fixed constants (socket.io
`reconnectionDelay` 1000 ms, the `connect_error` handler's manual 3000 ms)
and each socket's automatic reconnection is configured with a bound of 5
attempts, but the `connect_error` handler re-invokes `connectSocket`,
which creates a fresh socket whenever the user is authenticated and not
connected, so under persistent connect failures the total number of
connect attempts grows without bound. -/
theorem C6_retry_fixed_delay_unbounded_attempts :
    (∀ n, (failingRun n).connectAttempts = n + 1) ∧
    (∀ bound, ∃ n, (failingRun n).connectAttempts > bound) ∧
    connectSocketOptions.reconnectionAttempts = 5 ∧
    connectSocketOptions.reconnectionDelay = 1000 ∧
    connectErrorRetryDelayMs = 3000 := by
  refine ⟨fun n => by rw [failingRun_eq], fun bound => ⟨bound, ?_⟩, rfl, rfl, rfl⟩
  rw [failingRun_eq]
  exact Nat.lt_succ_self bound

/-- Claim C6 counterexample: after nine `connect_error` respawns of the
all-failing execution the client has started ten connect attempts,
exceeding the configured `reconnectionAttempts` bound of 5 — the retry
count is not bounded by the fixed attempt limit. -/
theorem C6_attempts_exceed_configured_bound :
    (failingRun 9).connectAttempts = 10 ∧
    connectSocketOptions.reconnectionAttempts = 5 ∧
    (failingRun 9).connectAttempts > connectSocketOptions.reconnectionAttempts := by
  decide

/-- Claim C7 (amended): `connectSocket` attempts a connection only when an
authenticated user is known (without one it is a no-op), and a call while
a connection is already open is a no-op; but a call while a socket exists
and is still connecting (not yet connected) is not guarded and creates
another socket. -/
theorem C7_connect_guard (s : ClientState) :
    (s.authUser = false → connectSocket s = s) ∧
    (s.socketExists = true → s.socketConnected = true → connectSocket s = s) ∧
    (s.authUser = true → s.socketConnected = false →
      (connectSocket s).socketsCreated = s.socketsCreated + 1) := by
  refine ⟨fun h1 => ?_, fun h2 h3 => ?_, fun h1 h4 => ?_⟩
  · simp [connectSocket, h1]
  · simp [connectSocket, h2, h3]
  · simp [connectSocket, h1, h4]

/-- Concrete instances of the C7 theorem: no-op without a user, no-op
while connected, and socket creation while a previous socket is still
connecting. -/
theorem C7_connect_guard_witness :
    connectSocket ⟨false, false, false, 0, 0⟩ = ⟨false, false, false, 0, 0⟩ ∧
    connectSocket ⟨true, true, true, 1, 1⟩ = ⟨true, true, true, 1, 1⟩ ∧
    (connectSocket ⟨true, true, false, 1, 1⟩).socketsCreated = 1 + 1 :=
  ⟨(C7_connect_guard ⟨false, false, false, 0, 0⟩).1 rfl,
   (C7_connect_guard ⟨true, true, true, 1, 1⟩).2.1 rfl rfl,
   (C7_connect_guard ⟨true, true, false, 1, 1⟩).2.2 rfl rfl⟩

/-- Claim C7 counterexample: with an authenticated user and a socket that
exists but is not yet connected (a connection in progress), calling
`connectSocket` is not a no-op — it creates a second socket and changes
the state. -/
theorem C7_second_socket_while_connecting :
    (connectSocket ⟨true, true, false, 1, 1⟩).socketsCreated = 2 ∧
    connectSocket ⟨true, true, false, 1, 1⟩ ≠ ⟨true, true, false, 1, 1⟩ := by
  refine ⟨rfl, ?_⟩
  decide

/-- Claim C8: the subscribed `newMessage` handler appends the incoming
event to the view's message list exactly when the event's `senderId`
equals the selected conversation partner's identity; an event from any
other sender leaves the list unchanged. -/
theorem C8_filter_by_selected_user (sel : String) (msgs : List NewMessage)
    (m : NewMessage) :
    (m.senderId = sel → newMessageHandler sel msgs m = msgs ++ [m]) ∧
    (m.senderId ≠ sel → newMessageHandler sel msgs m = msgs) := by
  constructor <;> intro h <;> simp [newMessageHandler, h]

/-- Concrete instances of the C8 theorem: a message from the selected
partner bob is appended, and the same message is ignored when carol is
selected. -/
theorem C8_filter_by_selected_user_witness :
    newMessageHandler "bob" [] ⟨"bob", "alice", some "hi", none⟩ =
      [] ++ [⟨"bob", "alice", some "hi", none⟩] ∧
    newMessageHandler "carol" [] ⟨"bob", "alice", some "hi", none⟩ = [] :=
  ⟨(C8_filter_by_selected_user "bob" [] ⟨"bob", "alice", some "hi", none⟩).1 rfl,
   (C8_filter_by_selected_user "carol" [] ⟨"bob", "alice", some "hi", none⟩).2 (by decide)⟩

/-- Removing all handlers of one event then filtering for that event
yields nothing. -/
theorem filter_eq_after_off (l : List (String × Nat)) (ev : String) :
    (l.filter (fun p => p.1 != ev)).filter (fun p => p.1 == ev) = [] := by
  induction l with
  | nil => rfl
  | cons p rest ih =>
    by_cases h : p.1 = ev <;> simp [List.filter_cons, h, ih]

/-- Claim C10: `unsubscribeFromMessages` with no live socket is a no-op,
it removes every `newMessage` handler from a live socket no matter how
many prior subscribe calls accumulated, and the sequence unsubscribe then
subscribe leaves exactly one `newMessage` handler installed. -/
theorem C10_unsubscribe_removes_all (sk : ClientSocket) (u : String) (h : Nat) :
    unsubscribeFromMessages none = none ∧
    newMessageHandlerCount (unsubscribeFromMessages (some sk)) = 0 ∧
    newMessageHandlerCount (subscribeToMessages (some u)
      (unsubscribeFromMessages (some sk)) h) = 1 := by
  refine ⟨rfl, ?_, ?_⟩
  · simp [unsubscribeFromMessages, newMessageHandlerCount, socketOffEvent,
      filter_eq_after_off]
  · simp [unsubscribeFromMessages, subscribeToMessages, newMessageHandlerCount,
      socketOn, socketOffEvent, List.filter_append, filter_eq_after_off]

end Nextalk
